import Mathlib

/-!
Verification of the pollevbot core against its specification.

This file gives a shallow embedding, in Lean 4, of the parts of the
repository that the specification's testable properties talk about:

* `output_validator.py` — the rule-based free-text validator and the
  validate-and-retry loop (`OutputValidator`, `validate_and_retry_response`);
* `pollbot.py` — the poll-detection step (`PollBot.get_new_poll_id`), the
  answered-polls dedup set, and the per-poll answering pipeline
  (`PollBot.answer_poll`);
* `telegram_notifier.py` — the approval broker: the shared
  `pending_responses` table, the callback handlers, the periodic cleanup
  thread, `send_for_approval` and `wait_for_response`;
* `response_logger.py` — the structure of a response-log entry.

Conventions: Python floats are modelled as rationals (`ℚ`), which is exact
for every comparison the code performs; Python exceptions are modelled with
`Except PyError`, where an `Except.error` value is an exception that escapes
the modelled function uncaught; Python dicts keyed by strings are modelled
as association lists; wall-clock time is modelled as a natural number of
ticks.  External effects (the HTTP session, the Anthropic API, the Telegram
transport) appear as explicit parameters carrying their observable results.
-/

/-- Python exceptions relevant to the embedded code.  An `Except.error`
carrying one of these models the exception escaping the function. -/
inductive PyError
  | readTimeout
  | jsonDecodeError
  | keyError
  | typeError
  | indexError
  | unboundLocalError
  | generationError
deriving DecidableEq

/- ### Validator (`output_validator.py`) -/

/-- A word character in the sense of the `re` module's `\w` class, over the
ASCII texts the bot handles: letters, digits or underscore. -/
def isWordChar (c : Char) : Bool := c.isAlphanum || c = '_'

/-- Character-wise lowercasing of a string; models `re.IGNORECASE` matching
by case-folding the text (the embedded patterns are already lower case). -/
def lowerStr (s : String) : List Char := s.toList.map Char.toLower

/-- Embeds `matchesAt pat s`: the literal pattern `pat` occurs at the head of `s`. -/
def matchesAt : List Char → List Char → Bool
  | [], _ => true
  | _ :: _, [] => false
  | p :: ps, c :: cs => (p = c) && matchesAt ps cs

/-- Embeds `containsSub pat s`: the literal pattern `pat` occurs somewhere in `s`
(`re.search` of a pattern with no metacharacters). -/
def containsSub (pat : List Char) : List Char → Bool
  | [] => pat.isEmpty
  | c :: cs => matchesAt pat (c :: cs) || containsSub pat cs

/-- A position is at a word boundary if the neighbouring character (when
there is one) is not a word character. -/
def boundaryOk : Option Char → Bool
  | none => true
  | some c => !(isWordChar c)

/-- Embeds `re.search` of a `\b`-bounded literal pattern: some occurrence of `pat`
whose neighbours on both sides are word boundaries.  `prev` carries the
character just before the current position (`none` at the start). -/
def searchBounded (pat : List Char) : Option Char → List Char → Bool
  | prev, [] => boundaryOk prev && pat.isEmpty
  | prev, c :: cs =>
      (boundaryOk prev && matchesAt pat (c :: cs) &&
        boundaryOk (List.head? (List.drop pat.length (c :: cs)))) ||
      searchBounded pat (some c) cs

/-- Word-bounded search of a pattern in a character list. -/
def containsWordBounded (pat : String) (text : List Char) : Bool :=
  searchBounded pat.toList none text

/-- The apostrophe character (used inside one of the disclosure patterns). -/
def apos : Char := '\''

/-- Embeds `OutputValidator.AI_DISCLOSURE_PATTERNS`: the word-bounded alternatives
of the case-insensitive disclosure regexes (the first source regex is an
alternation of the first six words; the remaining five regexes are the
remaining phrases). -/
def AI_DISCLOSURE_WORDS : List String :=
  ["ai", "artificial intelligence", "language model", "llm", "claude",
   "assistant", "as an ai", "i am an", "i cannot",
   String.mk ['i', ' ', 'd', 'o', 'n', apos, 't', ' ',
              'e', 'x', 'p', 'e', 'r', 'i', 'e', 'n', 'c', 'e'],
   "i apologize"]

/-- Embeds `OutputValidator.FORMAL_PATTERNS`: case-insensitive plain substrings. -/
def FORMAL_WORDS : List String :=
  ["furthermore", "moreover", "thus", "hence", "wherein", "hereby",
   "nevertheless", "subsequently"]

/-- Embeds `OutputValidator.MAX_RESPONSE_LENGTH`. -/
def MAX_RESPONSE_LENGTH : Nat := 150

/-- Embeds `OutputValidator.MIN_CONFIDENCE_THRESHOLD` (the float 0.7, exact;
written with `mkRat` so that concrete comparisons compute). -/
def MIN_CONFIDENCE_THRESHOLD : ℚ := mkRat 7 10

/-- The threshold is the rational 7/10. -/
theorem MIN_CONFIDENCE_THRESHOLD_eq : MIN_CONFIDENCE_THRESHOLD = 7 / 10 := by
  rw [MIN_CONFIDENCE_THRESHOLD, Rat.mkRat_eq_divInt, Rat.divInt_eq_div]
  norm_num

/-- Embeds `OutputValidator.check_ai_disclosure`. -/
def check_ai_disclosure (text : String) : Bool :=
  AI_DISCLOSURE_WORDS.any (fun p => containsWordBounded p (lowerStr text))

/-- Embeds `OutputValidator.check_formality`. -/
def check_formality (text : String) : Bool :=
  FORMAL_WORDS.any (fun p => containsSub p.toList (lowerStr text))

/-- Embeds `OutputValidator.check_length`: `len(text) <= MAX_RESPONSE_LENGTH`. -/
def check_length (text : String) : Bool :=
  text.length ≤ MAX_RESPONSE_LENGTH

/-- The backtick character (code point 96), used in the markdown check. -/
def backtickChar : Char := Char.ofNat 96

/-- Embeds `OutputValidator.check_response_structure`: rejects a triple backtick,
a hash or an asterisk, more than three periods, or any semicolon. -/
def check_response_structure (text : String) : Bool :=
  let cs := text.toList
  if containsSub [backtickChar, backtickChar, backtickChar] cs ||
      cs.contains '#' || cs.contains '*' then false
  else if 3 < cs.count '.' || 0 < cs.count ';' then false
  else true

/-- A free-text generator response: the dict
`{'answer': …, 'confidence': …, 'reasoning': …}`. -/
structure FreeTextResponse where
  answer : String
  confidence : ℚ
  reasoning : String
deriving DecidableEq

/-- The individual validation failures of
`OutputValidator.validate_free_text_response` (the source renders each as a
message string and joins them; only their presence matters here). -/
inductive Violation
  | confidenceTooLow
  | aiDisclosure
  | formalLanguage
  | responseTooLong
  | unnaturalStructure
deriving DecidableEq

/-- Embeds `OutputValidator.validate_free_text_response`: the list of collected
failures, in source order.  The source returns `None` exactly when this
list is empty, and the joined failure messages otherwise. -/
def validate_free_text_response (r : FreeTextResponse) : List Violation :=
  (if r.confidence < MIN_CONFIDENCE_THRESHOLD then [Violation.confidenceTooLow] else []) ++
  (if check_ai_disclosure r.answer then [Violation.aiDisclosure] else []) ++
  (if check_formality r.answer then [Violation.formalLanguage] else []) ++
  (if ¬ (check_length r.answer = true) then [Violation.responseTooLong] else []) ++
  (if ¬ (check_response_structure r.answer = true) then [Violation.unnaturalStructure] else [])

/-- The body of `validate_and_retry_response`'s `for attempt in
range(max_retries)` loop, recursing on the remaining fuel.  `gen i` is the
result of the `claude_client.get_free_text_response` call made on attempt
`i` (0-based); an `Except.error` from the generator escapes the loop, which
has no handler.  Returns the loop's result together with the number of
generation calls made. -/
def validate_and_retry_from (gen : Nat → Except PyError FreeTextResponse) :
    Nat → Nat → Except PyError (Option FreeTextResponse × Nat)
  | _, 0 => Except.ok (none, 0)
  | attempt, fuel + 1 =>
    match gen attempt with
    | Except.error e => Except.error e
    | Except.ok r =>
      if validate_free_text_response r = [] then Except.ok (some r, 1)
      else
        match validate_and_retry_from gen (attempt + 1) fuel with
        | Except.error e => Except.error e
        | Except.ok (res, n) => Except.ok (res, n + 1)

/-- Embeds `validate_and_retry_response` (source default `max_retries = 3`). -/
def validate_and_retry_response (gen : Nat → Except PyError FreeTextResponse)
    (max_retries : Nat) : Except PyError (Option FreeTextResponse × Nat) :=
  validate_and_retry_from gen 0 max_retries

/- Helper lemmas for the retry loop. -/

/-- If every attempt in the window `[attempt, attempt + fuel)` yields a
candidate that fails validation, the loop makes exactly `fuel` calls and
returns no answer. -/
theorem retry_all_fail_aux (gen : Nat → Except PyError FreeTextResponse) :
    ∀ (fuel attempt : Nat),
      (∀ i, attempt ≤ i → i < attempt + fuel →
        ∃ r, gen i = Except.ok r ∧ validate_free_text_response r ≠ []) →
      validate_and_retry_from gen attempt fuel = Except.ok (none, fuel) := by
  intro fuel
  induction fuel with
  | zero => intro attempt _; rfl
  | succ n ih =>
    intro attempt h
    obtain ⟨r, hr, hv⟩ := h attempt le_rfl (by omega)
    have hrec := ih (attempt + 1) (by
      intro i hi1 hi2
      exact h i (by omega) (by omega))
    simp only [validate_and_retry_from, hr, if_neg hv, hrec]

/-- C5: with `max_retries = 3`, if the generated candidates fail validation
on attempts 1 and 2 and pass on attempt 3, the loop makes exactly 3
generation calls and returns attempt 3's candidate; and for any generator
whose candidates all fail validation, the loop makes exactly `max_retries`
calls and returns no answer. -/
theorem C5_retry_loop_counts
    (gen : Nat → Except PyError FreeTextResponse) (r0 r1 r2 : FreeTextResponse)
    (h0 : gen 0 = Except.ok r0) (hv0 : validate_free_text_response r0 ≠ [])
    (h1 : gen 1 = Except.ok r1) (hv1 : validate_free_text_response r1 ≠ [])
    (h2 : gen 2 = Except.ok r2) (hv2 : validate_free_text_response r2 = []) :
    validate_and_retry_response gen 3 = Except.ok (some r2, 3) ∧
    (∀ (gen' : Nat → Except PyError FreeTextResponse) (max_retries : Nat),
      (∀ i, i < max_retries →
        ∃ r, gen' i = Except.ok r ∧ validate_free_text_response r ≠ []) →
      validate_and_retry_response gen' max_retries = Except.ok (none, max_retries)) := by
  constructor
  · simp only [validate_and_retry_response, validate_and_retry_from,
      h0, h1, h2, if_neg hv0, if_neg hv1, if_pos hv2]
  · intro gen' max_retries h
    exact retry_all_fail_aux gen' max_retries 0 (by
      intro i _ hi2
      exact h i (by omega))

/-- A candidate failing validation (AI disclosure phrase). -/
def failResp : FreeTextResponse :=
  { answer := "i apologize", confidence := mkRat 9 10, reasoning := "r" }

/-- A candidate passing validation. -/
def passResp : FreeTextResponse :=
  { answer := "pizza for sure", confidence := mkRat 9 10, reasoning := "r" }

/-- A generator failing validation on attempts 1 and 2, passing on 3. -/
def genW : Nat → Except PyError FreeTextResponse :=
  fun i => if i < 2 then Except.ok failResp else Except.ok passResp

/-- A generator always failing validation. -/
def genAllFail : Nat → Except PyError FreeTextResponse :=
  fun _ => Except.ok failResp

/-- Witness for C5 at a concrete pair of generators. -/
theorem C5_retry_loop_counts_witness :
    validate_and_retry_response genW 3 = Except.ok (some passResp, 3) ∧
    validate_and_retry_response genAllFail 3 = Except.ok (none, 3) := by
  have h := C5_retry_loop_counts genW failResp failResp passResp
    rfl (by decide) rfl (by decide) rfl (by decide)
  refine ⟨h.1, h.2 genAllFail 3 ?_⟩
  intro i _
  exact ⟨failResp, rfl, by decide⟩

/-- The 150-character string used to witness the inclusive length bound. -/
def s150 : String := String.mk (List.replicate 150 'a')

/-- C10: the validator's bounds are inclusive on the accepting side — a
text of exactly 150 characters passes `check_length`, and a candidate whose
confidence is exactly 0.7 is not flagged `confidenceTooLow` (only strictly
longer text or strictly lower confidence is flagged). -/
theorem C10_validator_bounds_inclusive :
    (∀ text : String, text.length = 150 → check_length text = true) ∧
    (∀ r : FreeTextResponse, r.confidence = 7 / 10 →
      Violation.confidenceTooLow ∉ validate_free_text_response r) := by
  constructor
  · intro text h
    simp [check_length, h, MAX_RESPONSE_LENGTH]
  · intro r h
    have hlt : ¬ (r.confidence < MIN_CONFIDENCE_THRESHOLD) := by
      rw [h, MIN_CONFIDENCE_THRESHOLD_eq]
      exact lt_irrefl _
    simp only [validate_free_text_response, if_neg hlt, List.nil_append]
    intro hmem
    rcases List.mem_append.1 hmem with h1 | h1
    · rcases List.mem_append.1 h1 with h2 | h2
      · rcases List.mem_append.1 h2 with h3 | h3
        · split at h3 <;> simp_all
        · split at h3 <;> simp_all
      · split at h2 <;> simp_all
    · split at h1 <;> simp_all

set_option maxRecDepth 4000 in
/-- Witness for C10: a concrete 150-character text and a concrete
confidence-0.7 candidate. -/
theorem C10_validator_bounds_inclusive_witness :
    check_length s150 = true ∧
    Violation.confidenceTooLow ∉
      validate_free_text_response { answer := "ok", confidence := mkRat 7 10, reasoning := "r" } := by
  refine ⟨C10_validator_bounds_inclusive.1 s150 (by decide), ?_⟩
  exact C10_validator_bounds_inclusive.2 _ (by exact MIN_CONFIDENCE_THRESHOLD_eq)

/- ### Approval broker (`telegram_notifier.py`) -/

/-- The `status` field of a `PendingResponse`: the source strings
`'pending'`, `'approved'`, `'rejected'`. -/
inductive Status
  | pending
  | approved
  | rejected
deriving DecidableEq

/-- The `PendingResponse` dataclass.  `timestamp` is the creation time in
ticks of 0.5 s (the waiter's sleep quantum). -/
structure PendingResponse where
  response_id : String
  question : String
  timestamp : Nat
  status : Status
  modified_text : Option String
deriving DecidableEq

/-- The shared `pending_responses` dict, as an association list keyed by
response id (Python dicts keep insertion order; keys are unique). -/
abbrev ResponseTable := List (String × PendingResponse)

/-- Dict lookup: `t[k]` / `k in t`. -/
def dictLookup (t : ResponseTable) (k : String) : Option PendingResponse :=
  match t with
  | [] => none
  | (k', v) :: rest => if k' = k then some v else dictLookup rest k

/-- Dict assignment `t[k] = v`: replace in place, or append a new entry. -/
def dictInsert (t : ResponseTable) (k : String) (v : PendingResponse) : ResponseTable :=
  match t with
  | [] => [(k, v)]
  | (k', v') :: rest =>
    if k' = k then (k, v) :: rest else (k', v') :: dictInsert rest k v

/-- Dict deletion `del t[k]`. -/
def dictErase (t : ResponseTable) (k : String) : ResponseTable :=
  t.filter (fun kv => !(kv.1 = k))

/-- The two status-changing callback actions of `handle_response`
(the `edit` action changes no table state; the edit flow lands in
`handle_edited_response`, embedded separately). -/
inductive ApprovalAction
  | approve
  | reject
deriving DecidableEq

/-- The status that `handle_response` writes for an action:
`'approved' if action == 'approve' else 'rejected'`. -/
def statusOfAction : ApprovalAction → Status
  | ApprovalAction.approve => Status.approved
  | ApprovalAction.reject => Status.rejected

/-- Embeds `_setup_handlers.handle_response` on an approve/reject callback: under
the lock, if the id is missing answer "Response expired or not found!" and
leave the table unchanged (the `false` flag); otherwise set the record's
status unconditionally.  (The source checks only membership, not the
current status.) -/
def handle_response (t : ResponseTable) (response_id : String)
    (action : ApprovalAction) : ResponseTable × Bool :=
  match dictLookup t response_id with
  | none => (t, false)
  | some p =>
    (dictInsert t response_id { p with status := statusOfAction action }, true)

/-- Embeds `_setup_handlers.handle_edited_response`: under the lock, if the id is
present set status to approved and store the modified text; otherwise
report "no longer pending" and leave the table unchanged. -/
def handle_edited_response (t : ResponseTable) (response_id : String)
    (text : String) : ResponseTable × Bool :=
  match dictLookup t response_id with
  | none => (t, false)
  | some p =>
    (dictInsert t response_id
      { p with status := Status.approved, modified_text := some text }, true)

/-- The 10-minute expiry threshold, in 0.5 s ticks. -/
def TTL_TICKS : Nat := 1200

/-- What one reaper scan does to one record: if it is older than the TTL
and still pending, set its status to rejected.  The record is not removed. -/
def cleanupRecord (now : Nat) (p : PendingResponse) : PendingResponse :=
  if TTL_TICKS < now - p.timestamp ∧ p.status = Status.pending then
    { p with status := Status.rejected }
  else p

/-- One pass of `_cleanup_expired_responses` over the whole table (the body
of the `while True` loop, executed under the lock every 60 s): every
expired pending record is auto-rejected in place. -/
def cleanup_pass (now : Nat) (t : ResponseTable) : ResponseTable :=
  t.map (fun kv => (kv.1, cleanupRecord now kv.2))

/-- Embeds `send_for_approval`: with no admin chat id configured, return `None`
without touching the table.  Otherwise insert a fresh pending record under
the lock, then send the Telegram message; if sending raises, delete the
record again under the lock (guarded by a membership test) and return
`None`.  `send_ok` carries whether `bot.send_message` succeeds. -/
def send_for_approval (admin_chat_id : Option String) (t : ResponseTable)
    (response_id : String) (now : Nat) (question : String) (send_ok : Bool) :
    Option String × ResponseTable :=
  match admin_chat_id with
  | none => (none, t)
  | some _ =>
    let p : PendingResponse :=
      { response_id := response_id, question := question, timestamp := now,
        status := Status.pending, modified_text := none }
    let t1 := dictInsert t response_id p
    if send_ok then (some response_id, t1)
    else
      (none, if (dictLookup t1 response_id).isSome then dictErase t1 response_id else t1)

/-- The dict `wait_for_response` returns on a terminal status:
`{'status': …, 'modified_text': …}`. -/
structure WaitResult where
  status : Status
  modified_text : Option String
deriving DecidableEq

/-- State of the race between the one waiter (`wait_for_response`), the
callback listener and the reaper on a single response id.  `record` is the
table entry for that id (`none` = absent); `now` is wall-clock time in
0.5 s ticks; `deadline` is the waiter's `end_time`; `waiter_result` is
`some r` once `wait_for_response` has returned `r` (`r = none` models the
source returning `None`); `removals` counts `del` operations on the id. -/
structure BrokerState where
  record : Option PendingResponse
  now : Nat
  deadline : Nat
  waiter_result : Option (Option WaitResult)
  removals : Nat
deriving DecidableEq

/-- The interleaved atomic steps: one iteration of the waiter's poll loop
(lock, check, and on no terminal status the 0.5 s sleep), an approve or
reject callback, an edited-answer message, one reaper scan, and the plain
passage of 0.5 s of time. -/
inductive BrokerEvent
  | waiterStep
  | resolveStep (a : ApprovalAction)
  | editStep (text : String)
  | reaperStep
  | tick

/-- One atomic step of the race.  Each branch is the lock-protected
critical section of the corresponding source thread, specialised to the
single tracked id. -/
def brokerStep (s : BrokerState) : BrokerEvent → BrokerState
  | BrokerEvent.tick => { s with now := s.now + 1 }
  | BrokerEvent.resolveStep a =>
    match s.record with
    | none => s
    | some p => { s with record := some { p with status := statusOfAction a } }
  | BrokerEvent.editStep text =>
    match s.record with
    | none => s
    | some p =>
      { s with record := some { p with status := Status.approved,
                                       modified_text := some text } }
  | BrokerEvent.reaperStep =>
    match s.record with
    | none => s
    | some p => { s with record := some (cleanupRecord s.now p) }
  | BrokerEvent.waiterStep =>
    match s.waiter_result with
    | some _ => s
    | none =>
      if s.now < s.deadline then
        match s.record with
        | none => { s with waiter_result := some none }
        | some p =>
          if p.status = Status.pending then { s with now := s.now + 1 }
          else
            { s with record := none, removals := s.removals + 1,
                     waiter_result := some (some ⟨p.status, p.modified_text⟩) }
      else
        match s.record with
        | some _ =>
          { s with record := none, removals := s.removals + 1,
                   waiter_result := some (some ⟨Status.rejected, none⟩) }
        | none => { s with waiter_result := some (some ⟨Status.rejected, none⟩) }

/-- Run a schedule of interleaved steps. -/
def brokerRun (s : BrokerState) (evs : List BrokerEvent) : BrokerState :=
  evs.foldl brokerStep s

/-- Number of waiter steps in a schedule. -/
def countWaiter (evs : List BrokerEvent) : Nat :=
  evs.countP (fun e => match e with | BrokerEvent.waiterStep => true | _ => false)

/- Helper lemmas about the table operations. -/

/-- Looking a key up after a cleanup pass sees the cleaned record. -/
theorem dictLookup_cleanup_pass (now : Nat) (t : ResponseTable) (k : String) :
    dictLookup (cleanup_pass now t) k = (dictLookup t k).map (cleanupRecord now) := by
  induction t with
  | nil => rfl
  | cons kv rest ih =>
    by_cases h : kv.1 = k
    · simp [cleanup_pass, dictLookup, h]
    · simp only [cleanup_pass, dictLookup, List.map_cons, if_neg h]
      exact ih

/-- Inserting a fresh key appends it at the end. -/
theorem dictInsert_fresh (t : ResponseTable) (k : String) (v : PendingResponse)
    (h : dictLookup t k = none) : dictInsert t k v = t ++ [(k, v)] := by
  induction t with
  | nil => rfl
  | cons kv rest ih =>
    simp only [dictLookup] at h
    by_cases hk : kv.1 = k
    · rw [if_pos hk] at h; exact absurd h (by simp)
    · rw [if_neg hk] at h
      simp only [dictInsert]
      rw [if_neg hk, ih h, List.cons_append]

/-- Erasing a key that is absent changes nothing. -/
theorem dictErase_absent (t : ResponseTable) (k : String)
    (h : dictLookup t k = none) : dictErase t k = t := by
  induction t with
  | nil => rfl
  | cons kv rest ih =>
    simp only [dictLookup] at h
    by_cases hk : kv.1 = k
    · rw [if_pos hk] at h; exact absurd h (by simp)
    · rw [if_neg hk] at h
      unfold dictErase at ih ⊢
      simp only [List.filter_cons]
      rw [if_pos (show (!(decide (kv.1 = k))) = true by simp [hk])]
      rw [ih h]

/-- Erasing a freshly inserted key restores the original table. -/
theorem dictErase_dictInsert_fresh (t : ResponseTable) (k : String)
    (v : PendingResponse) (h : dictLookup t k = none) :
    dictErase (dictInsert t k v) k = t := by
  rw [dictInsert_fresh t k v h]
  unfold dictErase
  rw [List.filter_append]
  have h1 : dictErase t k = t := dictErase_absent t k h
  unfold dictErase at h1
  rw [h1]
  simp

/-- Looking up the key just inserted finds the inserted value. -/
theorem dictLookup_dictInsert_self (t : ResponseTable) (k : String)
    (v : PendingResponse) : dictLookup (dictInsert t k v) k = some v := by
  induction t with
  | nil => simp [dictInsert, dictLookup]
  | cons kv rest ih =>
    by_cases hk : kv.1 = k
    · simp [dictInsert, dictLookup, hk]
    · simp only [dictInsert, if_neg hk, dictLookup, ih]

/- ### C3: what the reaper actually does to a stale pending record -/

/-- The stale pending record of the C3 scenario, created at tick 0. -/
def c3rec : PendingResponse :=
  { response_id := "1700000000000", question := "q", timestamp := 0,
    status := Status.pending, modified_text := none }

/-- C3 counterexample: a pending record created at t0 with no waiter is
still PRESENT in the table after the reaper pass at t0 + 11 min (tick
1320); the reaper auto-rejects it in place but never removes it, so the
claim's "absent from the table" is false. -/
theorem C3_reaper_counterexample :
    dictLookup (cleanup_pass 1320 [("1700000000000", c3rec)]) "1700000000000" =
      some { c3rec with status := Status.rejected } := by
  decide

/-- C3 (amended): a Pending record older than the 10-minute TTL is, after a
reaper pass, still present in the table with status Rejected — the reaper
force-rejects stale pending records in place but does not remove them. -/
theorem C3_reaper_rejects_in_place (t : ResponseTable) (k : String)
    (p : PendingResponse) (now : Nat)
    (hlook : dictLookup t k = some p)
    (hpend : p.status = Status.pending)
    (hold : TTL_TICKS < now - p.timestamp) :
    dictLookup (cleanup_pass now t) k = some { p with status := Status.rejected } := by
  rw [dictLookup_cleanup_pass, hlook]
  simp only [Option.map_some']
  unfold cleanupRecord
  rw [if_pos ⟨hold, hpend⟩]

/-- Witness for C3's amended statement at the concrete scenario. -/
theorem C3_reaper_rejects_in_place_witness :
    dictLookup (cleanup_pass 1320 [("1700000000000", c3rec)]) "1700000000000" =
      some { c3rec with status := Status.rejected } :=
  C3_reaper_rejects_in_place [("1700000000000", c3rec)] "1700000000000" c3rec 1320
    (by decide) (by decide) (by decide)

/- ### C4: late or duplicate resolve actions -/

/-- The initially pending record of the C4 scenario. -/
def c4rec : PendingResponse :=
  { response_id := "1", question := "q", timestamp := 0,
    status := Status.pending, modified_text := none }

/-- C4 counterexample: after an approve callback has already moved the
record out of Pending, a second reject callback on the same id is NOT a
no-op — it overwrites the terminal status (`handle_response` checks only
membership, never the current status), so the record transitions twice and
the last action wins. -/
theorem C4_resolve_counterexample :
    dictLookup (handle_response [("1", c4rec)] "1" ApprovalAction.approve).1 "1" =
      some { c4rec with status := Status.approved } ∧
    dictLookup
      (handle_response (handle_response [("1", c4rec)] "1" ApprovalAction.approve).1
        "1" ApprovalAction.reject).1 "1" =
      some { c4rec with status := Status.rejected } := by
  constructor
  · decide
  · decide

/-- C4 (amended): a resolve action on a MISSING record is a no-op (reported
as expired/not found); but on any PRESENT record — pending or already
terminal — `handle_response` and `handle_edited_response` set the status
unconditionally, so until the waiter removes the record a late or duplicate
action overwrites the previous transition (last action wins, not first). -/
theorem C4_resolve_first_transition_not_protected :
    (∀ (t : ResponseTable) (id : String) (a : ApprovalAction),
      dictLookup t id = none → handle_response t id a = (t, false)) ∧
    (∀ (t : ResponseTable) (id text : String),
      dictLookup t id = none → handle_edited_response t id text = (t, false)) ∧
    (∀ (t : ResponseTable) (id : String) (a : ApprovalAction) (p : PendingResponse),
      dictLookup t id = some p →
      (handle_response t id a).1 =
        dictInsert t id { p with status := statusOfAction a }) ∧
    (∀ (t : ResponseTable) (id text : String) (p : PendingResponse),
      dictLookup t id = some p →
      (handle_edited_response t id text).1 =
        dictInsert t id { p with status := Status.approved,
                                 modified_text := some text }) := by
  refine ⟨?_, ?_, ?_, ?_⟩
  · intro t id a h; simp [handle_response, h]
  · intro t id text h; simp [handle_edited_response, h]
  · intro t id a p h; simp [handle_response, h]
  · intro t id text p h; simp [handle_edited_response, h]

/-- Witness for C4's amended statement at concrete inputs. -/
theorem C4_resolve_first_transition_not_protected_witness :
    handle_response [] "1" ApprovalAction.approve = ([], false) ∧
    (handle_response [("1", c4rec)] "1" ApprovalAction.reject).1 =
      dictInsert [("1", c4rec)] "1" { c4rec with status := Status.rejected } := by
  constructor
  · exact C4_resolve_first_transition_not_protected.1 [] "1" ApprovalAction.approve rfl
  · exact C4_resolve_first_transition_not_protected.2.2.1 [("1", c4rec)] "1"
      ApprovalAction.reject c4rec (by decide)

/- ### C9: send_for_approval failure paths leave the table unchanged -/

/-- C9: `send_for_approval` returns `None` without a table change on both
failure paths: with no admin chat id it never inserts, and when sending the
notification raises, the freshly inserted record is deleted again under the
lock — so a `None` return leaves no orphaned Pending record for the fresh
request id. -/
theorem C9_send_for_approval_no_orphen
    (admin : Option String) (t : ResponseTable) (id : String) (now : Nat)
    (q : String) (send_ok : Bool) (hfresh : dictLookup t id = none) :
    send_for_approval none t id now q send_ok = (none, t) ∧
    ((send_for_approval admin t id now q send_ok).1 = none →
      (send_for_approval admin t id now q send_ok).2 = t) ∧
    ((send_for_approval admin t id now q send_ok).1 = none →
      dictLookup (send_for_approval admin t id now q send_ok).2 id = none) := by
  have herase : ∀ v, dictErase (dictInsert t id v) id = t :=
    fun v => dictErase_dictInsert_fresh t id v hfresh
  match admin with
  | none => exact ⟨rfl, fun _ => rfl, fun _ => hfresh⟩
  | some chat =>
    refine ⟨rfl, ?_, ?_⟩
    · intro h
      by_cases hs : send_ok
      · simp [send_for_approval, hs] at h
      · simp only [send_for_approval, if_neg hs,
          dictLookup_dictInsert_self, Option.isSome_some, if_pos] at h ⊢
        simpa using herase _
    · intro h
      by_cases hs : send_ok
      · simp [send_for_approval, hs] at h
      · simp only [send_for_approval, if_neg hs,
          dictLookup_dictInsert_self, Option.isSome_some, if_pos]
        rw [herase _]
        exact hfresh

/-- Witness for C9 at a concrete failing send. -/
theorem C9_send_for_approval_no_orphen_witness :
    send_for_approval none [] "9" 0 "q" false = (none, []) ∧
    ((send_for_approval (some "admin") [] "9" 0 "q" false).1 = none →
      (send_for_approval (some "admin") [] "9" 0 "q" false).2 = []) := by
  have h := C9_send_for_approval_no_orphen (some "admin") [] "9" 0 "q" false rfl
  exact ⟨h.1, h.2.1⟩

/- ### C1: the waiter / listener / reaper race -/

/-- The deadline is fixed by `wait_for_response` on entry; no step moves it. -/
theorem brokerStep_deadline (s : BrokerState) (e : BrokerEvent) :
    (brokerStep s e).deadline = s.deadline := by
  cases e <;> unfold brokerStep <;> (repeat' split) <;> rfl

/-- Time never goes backwards. -/
theorem brokerStep_now_mono (s : BrokerState) (e : BrokerEvent) :
    s.now ≤ (brokerStep s e).now := by
  cases e <;> unfold brokerStep <;> (repeat' split) <;> simp

/-- Once the waiter has returned, its result never changes: the source
function has returned and executes no further. -/
theorem brokerStep_keeps_result (s : BrokerState) (e : BrokerEvent)
    (r : Option WaitResult) (h : s.waiter_result = some r) :
    (brokerStep s e).waiter_result = some r := by
  cases e <;> unfold brokerStep <;> (repeat' split) <;> simp_all

/-- A step other than the waiter's never touches the waiter's result. -/
theorem brokerStep_resolve_result (s : BrokerState) (a : ApprovalAction) :
    (brokerStep s (BrokerEvent.resolveStep a)).waiter_result = s.waiter_result := by
  cases hrec : s.record <;> simp [brokerStep, hrec]

theorem brokerStep_edit_result (s : BrokerState) (text : String) :
    (brokerStep s (BrokerEvent.editStep text)).waiter_result = s.waiter_result := by
  cases hrec : s.record <;> simp [brokerStep, hrec]

theorem brokerStep_reaper_result (s : BrokerState) :
    (brokerStep s BrokerEvent.reaperStep).waiter_result = s.waiter_result := by
  cases hrec : s.record <;> simp [brokerStep, hrec]

/-- The per-id exactly-once invariant: while the waiter has not returned,
nothing has been removed and the record is still in the table; once the
waiter has returned, the record has been removed exactly once and the
delivered outcome is a real terminal outcome (never `None`). -/
def BrokerInv (s : BrokerState) : Prop :=
  (s.waiter_result = none → s.removals = 0 ∧ s.record.isSome = true) ∧
  (∀ r, s.waiter_result = some r →
    s.removals = 1 ∧ s.record = none ∧ r.isSome = true)

/-- Every interleaved step preserves the exactly-once invariant. -/
theorem brokerStep_inv (s : BrokerState) (e : BrokerEvent) (h : BrokerInv s) :
    BrokerInv (brokerStep s e) := by
  obtain ⟨h1, h2⟩ := h
  cases e with
  | tick => exact ⟨h1, h2⟩
  | resolveStep a =>
    cases hrec : s.record with
    | none => simp only [brokerStep, hrec]; exact ⟨h1, h2⟩
    | some p =>
      simp only [brokerStep, hrec]
      constructor
      · intro hw
        exact ⟨(h1 hw).1, rfl⟩
      · intro r hw
        exact absurd ((h2 r hw).2.1.symm.trans hrec) (by simp)
  | editStep text =>
    cases hrec : s.record with
    | none => simp only [brokerStep, hrec]; exact ⟨h1, h2⟩
    | some p =>
      simp only [brokerStep, hrec]
      constructor
      · intro hw
        exact ⟨(h1 hw).1, rfl⟩
      · intro r hw
        exact absurd ((h2 r hw).2.1.symm.trans hrec) (by simp)
  | reaperStep =>
    cases hrec : s.record with
    | none => simp only [brokerStep, hrec]; exact ⟨h1, h2⟩
    | some p =>
      simp only [brokerStep, hrec]
      constructor
      · intro hw
        exact ⟨(h1 hw).1, rfl⟩
      · intro r hw
        exact absurd ((h2 r hw).2.1.symm.trans hrec) (by simp)
  | waiterStep =>
    cases hw : s.waiter_result with
    | some r =>
      simp only [brokerStep, hw]
      exact ⟨h1, h2⟩
    | none =>
      obtain ⟨hrem, hsome⟩ := h1 hw
      obtain ⟨p, hrec⟩ := Option.isSome_iff_exists.1 hsome
      by_cases hd : s.now < s.deadline
      · by_cases hp : p.status = Status.pending
        · have hstep : brokerStep s BrokerEvent.waiterStep = { s with now := s.now + 1 } := by
            simp only [brokerStep, hw, hrec]
            rw [if_pos hd, if_pos hp]
          rw [hstep]
          exact ⟨fun _ => ⟨hrem, by simp [hrec]⟩,
            fun r hr => absurd (hw.symm.trans hr) (by simp)⟩
        · have hstep : brokerStep s BrokerEvent.waiterStep =
              { s with record := none, removals := s.removals + 1,
                       waiter_result := some (some ⟨p.status, p.modified_text⟩) } := by
            simp only [brokerStep, hw, hrec]
            rw [if_pos hd, if_neg hp]
          rw [hstep]
          refine ⟨fun hc => absurd hc (by simp), fun r hr => ?_⟩
          have hr2 : r = some ⟨p.status, p.modified_text⟩ :=
            (Option.some.inj (show some (some (⟨p.status, p.modified_text⟩ : WaitResult)) =
              some r from hr)).symm
          subst hr2
          exact ⟨show s.removals + 1 = 1 from by omega, rfl, rfl⟩
      · have hstep : brokerStep s BrokerEvent.waiterStep =
            { s with record := none, removals := s.removals + 1,
                     waiter_result := some (some ⟨Status.rejected, none⟩) } := by
          simp only [brokerStep, hw, hrec]
          rw [if_neg hd]
        rw [hstep]
        refine ⟨fun hc => absurd hc (by simp), fun r hr => ?_⟩
        have hr2 : r = some ⟨Status.rejected, none⟩ :=
          (Option.some.inj (show some (some (⟨Status.rejected, none⟩ : WaitResult)) =
            some r from hr)).symm
        subst hr2
        exact ⟨show s.removals + 1 = 1 from by omega, rfl, rfl⟩

/-- The invariant holds at the end of every interleaving. -/
theorem brokerRun_inv (evs : List BrokerEvent) :
    ∀ s : BrokerState, BrokerInv s → BrokerInv (brokerRun s evs) := by
  induction evs with
  | nil => intro s h; exact h
  | cons e rest ih =>
    intro s h
    exact ih (brokerStep s e) (brokerStep_inv s e h)

/-- A delivered outcome persists to the end of every interleaving. -/
theorem brokerRun_keeps_result (evs : List BrokerEvent) :
    ∀ (s : BrokerState) (r : Option WaitResult), s.waiter_result = some r →
      (brokerRun s evs).waiter_result = some r := by
  induction evs with
  | nil => intro s r h; exact h
  | cons e rest ih =>
    intro s r h
    exact ih (brokerStep s e) r (brokerStep_keeps_result s e r h)

/-- Any schedule carrying enough waiter steps makes the waiter return: each
non-returning waiter iteration burns one 0.5 s sleep tick toward the
deadline, and the first iteration at or past the deadline returns. -/
theorem brokerRun_returns (evs : List BrokerEvent) :
    ∀ s : BrokerState, s.waiter_result = none →
      s.deadline - s.now + 1 ≤ countWaiter evs →
      ((brokerRun s evs).waiter_result).isSome = true := by
  induction evs with
  | nil =>
    intro s _ hcount
    simp only [countWaiter, List.countP_nil] at hcount
    omega
  | cons e rest ih =>
    intro s hw hcount
    have hrun : brokerRun s (e :: rest) = brokerRun (brokerStep s e) rest := rfl
    cases e with
    | tick =>
      rw [hrun]
      refine ih _ hw ?_
      have hc : countWaiter (BrokerEvent.tick :: rest) = countWaiter rest := by
        simp [countWaiter]
      show s.deadline - (s.now + 1) + 1 ≤ countWaiter rest
      omega
    | resolveStep a =>
      rw [hrun]
      refine ih _ ((brokerStep_resolve_result s a).trans hw) ?_
      have hc : countWaiter (BrokerEvent.resolveStep a :: rest) = countWaiter rest := by
        simp [countWaiter]
      have hd := brokerStep_deadline s (BrokerEvent.resolveStep a)
      have hn := brokerStep_now_mono s (BrokerEvent.resolveStep a)
      omega
    | editStep text =>
      rw [hrun]
      refine ih _ ((brokerStep_edit_result s text).trans hw) ?_
      have hc : countWaiter (BrokerEvent.editStep text :: rest) = countWaiter rest := by
        simp [countWaiter]
      have hd := brokerStep_deadline s (BrokerEvent.editStep text)
      have hn := brokerStep_now_mono s (BrokerEvent.editStep text)
      omega
    | reaperStep =>
      rw [hrun]
      refine ih _ ((brokerStep_reaper_result s).trans hw) ?_
      have hc : countWaiter (BrokerEvent.reaperStep :: rest) = countWaiter rest := by
        simp [countWaiter]
      have hd := brokerStep_deadline s BrokerEvent.reaperStep
      have hn := brokerStep_now_mono s BrokerEvent.reaperStep
      omega
    | waiterStep =>
      have hc : countWaiter (BrokerEvent.waiterStep :: rest) = countWaiter rest + 1 := by
        simp [countWaiter]
      by_cases hd : s.now < s.deadline
      · cases hrec : s.record with
        | none =>
          have hstep : (brokerStep s BrokerEvent.waiterStep).waiter_result = some none := by
            simp only [brokerStep, hw, hrec]
            rw [if_pos hd]
          rw [hrun, brokerRun_keeps_result rest _ none hstep]
          rfl
        | some p =>
          by_cases hp : p.status = Status.pending
          · have hstep : brokerStep s BrokerEvent.waiterStep = { s with now := s.now + 1 } := by
              simp only [brokerStep, hw, hrec]
              rw [if_pos hd, if_pos hp]
            rw [hrun, hstep]
            refine ih _ hw ?_
            show s.deadline - (s.now + 1) + 1 ≤ countWaiter rest
            omega
          · have hstep : (brokerStep s BrokerEvent.waiterStep).waiter_result =
                some (some ⟨p.status, p.modified_text⟩) := by
              simp only [brokerStep, hw, hrec]
              rw [if_pos hd, if_neg hp]
            rw [hrun, brokerRun_keeps_result rest _ _ hstep]
            rfl
      · have hstep : (brokerStep s BrokerEvent.waiterStep).waiter_result =
            some (some ⟨Status.rejected, none⟩) := by
          cases hrec : s.record <;> simp only [brokerStep, hw, hrec] <;> rw [if_neg hd]
        rw [hrun, brokerRun_keeps_result rest _ _ hstep]
        rfl

/-- A resolve callback on an id whose record is gone is benign: it changes
no state (the source answers "Response expired or not found!" and returns). -/
theorem brokerStep_resolve_absent (s : BrokerState) (a : ApprovalAction)
    (h : s.record = none) : brokerStep s (BrokerEvent.resolveStep a) = s := by
  simp [brokerStep, h]

/-- An edited-answer message for a gone record is likewise benign. -/
theorem brokerStep_edit_absent (s : BrokerState) (text : String)
    (h : s.record = none) : brokerStep s (BrokerEvent.editStep text) = s := by
  simp [brokerStep, h]

/-- A reaper scan never touches a gone record. -/
theorem brokerStep_reaper_absent (s : BrokerState)
    (h : s.record = none) : brokerStep s BrokerEvent.reaperStep = s := by
  simp [brokerStep, h]

/-- The initial state of the race: the record for the id is in the table,
`wait_for_response` has just been entered with `end_time = deadline`, and
nothing has been removed yet. -/
def brokerInit (p : PendingResponse) (now deadline : Nat) : BrokerState :=
  { record := some p, now := now, deadline := deadline,
    waiter_result := none, removals := 0 }

/-- C1: starting from a pending record with a single waiter, under EVERY
interleaving of waiter iterations, approve/reject callbacks, edited-answer
messages, reaper scans and time: the record is removed at most once; while
the waiter has not returned nothing was removed and the record is still
present; when the waiter has returned, its (unique) outcome is a real
terminal outcome and the record was removed exactly once; any schedule with
`deadline - now + 1` waiter iterations forces the waiter to return (each
non-returning iteration burns one 0.5 s sleep tick, so the source returns
within `timeout + ε`); and once the record is gone every late resolver,
editor or reaper step is a benign no-op. -/
theorem C1_await_resolution_exactly_once
    (p : PendingResponse) (hp : p.status = Status.pending)
    (now deadline : Nat) (evs : List BrokerEvent) :
    let sF := brokerRun (brokerInit p now deadline) evs
    sF.removals ≤ 1 ∧
    (sF.waiter_result = none → sF.removals = 0 ∧ sF.record.isSome = true) ∧
    (∀ r, sF.waiter_result = some r →
      sF.removals = 1 ∧ sF.record = none ∧ r.isSome = true) ∧
    (deadline - now + 1 ≤ countWaiter evs → (sF.waiter_result).isSome = true) ∧
    (∀ a, sF.record = none → brokerStep sF (BrokerEvent.resolveStep a) = sF) ∧
    (∀ text, sF.record = none → brokerStep sF (BrokerEvent.editStep text) = sF) ∧
    (sF.record = none → brokerStep sF BrokerEvent.reaperStep = sF) := by
  intro sF
  have hinv0 : BrokerInv (brokerInit p now deadline) :=
    ⟨fun _ => ⟨rfl, rfl⟩, fun r hr => absurd hr (by simp [brokerInit])⟩
  obtain ⟨h1, h2⟩ := brokerRun_inv evs _ hinv0
  refine ⟨?_, h1, h2, ?_, ?_, ?_, ?_⟩
  · cases hw : sF.waiter_result with
    | none => exact (h1 hw).1 ▸ Nat.zero_le 1
    | some r => exact (h2 r hw).1 ▸ le_rfl
  · intro hcount
    exact brokerRun_returns evs _ rfl hcount
  · intro a h
    exact brokerStep_resolve_absent sF a h
  · intro text h
    exact brokerStep_edit_absent sF text h
  · intro h
    exact brokerStep_reaper_absent sF h

/-- The pending record of the C1 witness scenario. -/
def c1rec : PendingResponse :=
  { response_id := "1", question := "q", timestamp := 0,
    status := Status.pending, modified_text := none }

/-- The schedule of the C1 witness scenario: the approve callback lands
first, then the waiter iterates. -/
def c1evs : List BrokerEvent :=
  [BrokerEvent.resolveStep ApprovalAction.approve, BrokerEvent.waiterStep,
   BrokerEvent.waiterStep, BrokerEvent.waiterStep]

/-- Witness for C1: in the concrete race where the approve callback lands
first, the waiter returns the single terminal outcome, the record is
removed exactly once, and a late reject callback is a benign no-op. -/
theorem C1_await_resolution_exactly_once_witness :
    (brokerRun (brokerInit c1rec 0 2) c1evs).removals ≤ 1 ∧
    ((brokerRun (brokerInit c1rec 0 2) c1evs).waiter_result).isSome = true ∧
    (brokerRun (brokerInit c1rec 0 2) c1evs).removals = 1 ∧
    (brokerRun (brokerInit c1rec 0 2) c1evs).record = none ∧
    brokerStep (brokerRun (brokerInit c1rec 0 2) c1evs)
      (BrokerEvent.resolveStep ApprovalAction.reject) =
      brokerRun (brokerInit c1rec 0 2) c1evs := by
  have h := C1_await_resolution_exactly_once c1rec rfl 0 2 c1evs
  have hres : (brokerRun (brokerInit c1rec 0 2) c1evs).waiter_result =
      some (some ⟨Status.approved, none⟩) := by decide
  have hterm := h.2.2.1 (some ⟨Status.approved, none⟩) hres
  exact ⟨h.1, h.2.2.2.1 (by decide), hterm.1, hterm.2.1,
    h.2.2.2.2.1 ApprovalAction.reject hterm.2.1⟩

/- ### Poll detection (`pollbot.py`, `get_new_poll_id`) -/

/-- A JSON value as produced by `json.loads`. -/
inductive JVal
  | jnull
  | jbool (b : Bool)
  | jnum (q : ℚ)
  | jstr (s : String)
  | jarr (elems : List JVal)
  | jobj (fields : List (String × JVal))

/-- A hashable JSON scalar: the only values Python allows into the
`answered_polls` set (a `dict` or `list` uid would raise `TypeError` at the
membership test). -/
inductive JPrim
  | pnull
  | pbool (b : Bool)
  | pnum (q : ℚ)
  | pstr (s : String)
deriving DecidableEq

/-- Key lookup in a JSON object. -/
def jobjLookup : List (String × JVal) → String → Option JVal
  | [], _ => none
  | (k', v) :: rest, k => if k' = k then some v else jobjLookup rest k

/-- Python's `'error' in error_data`: key membership for a dict, substring
for a str, element equality for a list; `TypeError` for other types. -/
def pyContainsError : JVal → Except PyError Bool
  | JVal.jobj fields => Except.ok (fields.any (fun kv => kv.1 = "error"))
  | JVal.jstr s => Except.ok (containsSub "error".toList s.toList)
  | JVal.jarr es => Except.ok (es.any (fun v =>
      match v with | JVal.jstr s => s = "error" | _ => false))
  | _ => Except.error PyError.typeError

/-- Python's `x['uid']` on a parsed JSON value: a dict yields the value or
`KeyError`; any other type raises `TypeError`. -/
def pyGetItem : JVal → String → Except PyError JVal
  | JVal.jobj fields, k =>
    match jobjLookup fields k with
    | some v => Except.ok v
    | none => Except.error PyError.keyError
  | _, _ => Except.error PyError.typeError

/-- Entry of a value into a Python set-membership test: scalars are
hashable; a list or dict raises `TypeError: unhashable type`. -/
def toHashable : JVal → Except PyError JPrim
  | JVal.jnull => Except.ok JPrim.pnull
  | JVal.jbool b => Except.ok (JPrim.pbool b)
  | JVal.jnum q => Except.ok (JPrim.pnum q)
  | JVal.jstr s => Except.ok (JPrim.pstr s)
  | _ => Except.error PyError.typeError

/-- The `message` field of the decoded firehose payload:
absent, a string (together with the result of `json.loads` on it, `none`
when parsing raises `JSONDecodeError`), or present with a non-string value. -/
inductive MessageField
  | absent
  | strMsg (parse : Option JVal)
  | nonStr (v : JVal)

/-- The observable outcome of the firehose probe `self.session.get`:
a `ReadTimeout`, a body that `r.json()` cannot decode, or a decoded
payload with its `message` field. -/
inductive FirehoseResponse
  | timeout
  | badBody
  | payload (message : MessageField)

/-- The `PollBot` state that `get_new_poll_id` reads and writes: the
`answered_polls` set (as a list without duplicates of insertion order) and
`last_error`. -/
structure BotState where
  answered_polls : List JPrim
  last_error : Option JVal

/-- Lines 258-267 of `pollbot.py`: `json.loads(response_data['message'])`,
the `['uid']` / `['type']` item accesses, the answered-set membership test
and insertion.  `KeyError` is caught by the enclosing handler (treated as
"no poll"); `JSONDecodeError` and `TypeError` escape uncaught. -/
def extract_poll (st : BotState) (message : MessageField) :
    Except PyError ((Option JPrim × Option JVal) × BotState) :=
  match message with
  | MessageField.absent => Except.ok ((none, none), st)
  | MessageField.nonStr _ => Except.error PyError.typeError
  | MessageField.strMsg none => Except.error PyError.jsonDecodeError
  | MessageField.strMsg (some v) =>
    match pyGetItem v "uid" with
    | Except.error PyError.keyError => Except.ok ((none, none), st)
    | Except.error e => Except.error e
    | Except.ok uid =>
      match pyGetItem v "type" with
      | Except.error PyError.keyError => Except.ok ((none, none), st)
      | Except.error e => Except.error e
      | Except.ok ptype =>
        match toHashable uid with
        | Except.error e => Except.error e
        | Except.ok uidh =>
          if uidh ∈ st.answered_polls then Except.ok ((none, some ptype), st)
          else Except.ok ((some uidh, some ptype),
                 { st with answered_polls := st.answered_polls ++ [uidh] })

/-- Embeds `PollBot.get_new_poll_id`: a transport timeout is caught and treated as
"no poll"; an undecodable body raises; a string `message` that parses to a
value containing an `error` marker records it in `last_error` and reports
"no poll" (the caller refreshes its token on `ExpiredSubscription`); the
inner `json.JSONDecodeError` of the pre-check is passed over; everything
else proceeds to uid extraction. -/
def get_new_poll_id (st : BotState) (input : FirehoseResponse) :
    Except PyError ((Option JPrim × Option JVal) × BotState) :=
  match input with
  | FirehoseResponse.timeout => Except.ok ((none, none), st)
  | FirehoseResponse.badBody => Except.error PyError.jsonDecodeError
  | FirehoseResponse.payload message =>
    match message with
    | MessageField.strMsg (some v) =>
      match pyContainsError v with
      | Except.error e => Except.error e
      | Except.ok true =>
        Except.ok ((none, none), { st with last_error := some v })
      | Except.ok false => extract_poll st (MessageField.strMsg (some v))
    | m => extract_poll st m

/-- The detection loop as driven by `run`: feed one probe outcome per
iteration, collect the returned poll ids; an escaping exception kills the
process, ending the collection. -/
def runProbes (st : BotState) : List FirehoseResponse → List (Option JPrim) × BotState
  | [] => ([], st)
  | i :: rest =>
    match get_new_poll_id st i with
    | Except.error _ => ([], st)
    | Except.ok ((pid, _), st') =>
      let (ids, stF) := runProbes st' rest
      (pid :: ids, stF)

/- Step lemmas for the detection function. -/

/-- If a call detects a new poll id, that id was not yet in the answered
set and is appended to it before the id is handed to the caller. -/
theorem extract_poll_some (st : BotState) (message : MessageField)
    (p : JPrim) (t : Option JVal) (st' : BotState)
    (h : extract_poll st message = Except.ok ((some p, t), st')) :
    p ∉ st.answered_polls ∧ st'.answered_polls = st.answered_polls ++ [p] := by
  unfold extract_poll at h
  repeat' split at h
  all_goals simp_all
  all_goals
    obtain ⟨⟨h1, _⟩, h3⟩ := h
    subst h1 h3
    simp_all

/-- A successful call only ever keeps or appends to the answered set. -/
theorem extract_poll_mono (st : BotState) (message : MessageField)
    (res : Option JPrim × Option JVal) (st' : BotState)
    (h : extract_poll st message = Except.ok (res, st')) :
    ∀ q, q ∈ st.answered_polls → q ∈ st'.answered_polls := by
  unfold extract_poll at h
  repeat' split at h
  all_goals simp_all
  all_goals
    obtain ⟨-, h3⟩ := h
    subst h3
    simp_all

/-- An id already in the answered set is never detected again. -/
theorem extract_poll_suppresses (st : BotState) (message : MessageField)
    (p : JPrim) (t : Option JVal) (st' : BotState)
    (hmem : p ∈ st.answered_polls) :
    extract_poll st message ≠ Except.ok ((some p, t), st') := by
  intro h
  exact (extract_poll_some st message p t st' h).1 hmem

theorem get_new_poll_id_some (st : BotState) (input : FirehoseResponse)
    (p : JPrim) (t : Option JVal) (st' : BotState)
    (h : get_new_poll_id st input = Except.ok ((some p, t), st')) :
    p ∉ st.answered_polls ∧ st'.answered_polls = st.answered_polls ++ [p] := by
  unfold get_new_poll_id at h
  repeat' split at h
  all_goals first
    | exact extract_poll_some st _ p t st' h
    | simp_all

theorem get_new_poll_id_mono (st : BotState) (input : FirehoseResponse)
    (res : Option JPrim × Option JVal) (st' : BotState)
    (h : get_new_poll_id st input = Except.ok (res, st')) :
    ∀ q, q ∈ st.answered_polls → q ∈ st'.answered_polls := by
  unfold get_new_poll_id at h
  repeat' split at h
  all_goals first
    | exact extract_poll_mono st _ res st' h
    | exact Except.noConfusion h
    | (intro q hq
       obtain ⟨h1, h2⟩ := Prod.mk.inj (Except.ok.inj h)
       subst h2
       simpa using hq)

/-- C2: along any sequence of probe outcomes, (i) an id handed to the
caller by the detection step is already in the answered set the step
leaves behind (so before any answer attempt); (ii) the answered set only
ever grows; (iii) an id already in the answered set is never returned by
the run; and (iv) no id is ever returned twice. -/
theorem C2_dedup_invariant (inputs : List FirehoseResponse) (st : BotState) :
    (∀ (input : FirehoseResponse) (p : JPrim) (t : Option JVal) (st' : BotState),
      get_new_poll_id st input = Except.ok ((some p, t), st') →
      p ∈ st'.answered_polls) ∧
    (∀ q, q ∈ st.answered_polls → q ∈ (runProbes st inputs).2.answered_polls) ∧
    (∀ q, q ∈ st.answered_polls → some q ∉ (runProbes st inputs).1) ∧
    ((runProbes st inputs).1.filterMap id).Nodup := by
  refine ⟨?_, ?_⟩
  · intro input p t st' h
    rw [(get_new_poll_id_some st input p t st' h).2]
    simp
  · induction inputs generalizing st with
    | nil => exact ⟨fun q hq => hq, fun q _ => by simp [runProbes], by simp [runProbes]⟩
    | cons i rest ih =>
      cases hstep : get_new_poll_id st i with
      | error e =>
        refine ⟨fun q hq => ?_, fun q _ => ?_, ?_⟩
        · simp [runProbes, hstep]; exact hq
        · simp [runProbes, hstep]
        · simp [runProbes, hstep]
      | ok val =>
        obtain ⟨⟨pid, t⟩, st'⟩ := val
        have hmono := get_new_poll_id_mono st i (pid, t) st' hstep
        obtain ⟨ih1, ih2, ih3⟩ := ih st'
        have hrun : runProbes st (i :: rest) =
            (pid :: (runProbes st' rest).1, (runProbes st' rest).2) := by
          simp [runProbes, hstep]
        refine ⟨?_, ?_, ?_⟩
        · intro q hq
          rw [hrun]
          exact ih1 q (hmono q hq)
        · intro q hq
          rw [hrun]
          intro hc
          rcases List.mem_cons.1 hc with hc | hc
          · cases pid with
            | none => exact Option.noConfusion hc
            | some p =>
              have hqp : q = p := Option.some.inj hc
              subst hqp
              exact (get_new_poll_id_some st i q t st' hstep).1 hq
          · exact ih2 q (hmono q hq) hc
        · rw [hrun]
          show (List.filterMap id (pid :: (runProbes st' rest).1)).Nodup
          cases pid with
          | none => simpa using ih3
          | some p =>
            have hpmem : p ∈ st'.answered_polls := by
              rw [(get_new_poll_id_some st i p t st' hstep).2]
              simp
            have hfm : List.filterMap id (some p :: (runProbes st' rest).1) =
                p :: List.filterMap id (runProbes st' rest).1 := by simp
            rw [hfm]
            refine List.nodup_cons.2 ⟨?_, ih3⟩
            intro hc
            obtain ⟨a, ha, hha⟩ := List.mem_filterMap.1 hc
            have haa : a = some p := hha
            subst haa
            exact ih2 p hpmem ha

/-- The fresh bot state: nothing answered yet, no recorded error. -/
def st0 : BotState := { answered_polls := [], last_error := none }

/-- A healthy firehose payload reporting poll `uid` as open. -/
def probeOpen (uid : String) : FirehoseResponse :=
  FirehoseResponse.payload (MessageField.strMsg (some (JVal.jobj
    [("uid", JVal.jstr uid), ("type", JVal.jstr "multiple_choice_poll")])))

/-- Witness for C2: the same poll reported open twice is detected exactly
once; the second probe returns no poll id. -/
theorem C2_dedup_invariant_witness :
    (List.filterMap id (runProbes st0 [probeOpen "p1", probeOpen "p1"]).1).Nodup ∧
    (runProbes st0 [probeOpen "p1", probeOpen "p1"]).1 =
      [some (JPrim.pstr "p1"), none] := by
  refine ⟨(C2_dedup_invariant [probeOpen "p1", probeOpen "p1"] st0).2.2.2, ?_⟩
  decide

/- ### C6: what the probe does with each payload shape -/

/-- C6 counterexample: a payload whose `message` is a string that is not
valid JSON makes the probe RAISE (the pre-check catches and passes the
inner `json.JSONDecodeError`, but line 258's second `json.loads` raises it
again outside any matching handler), so "the probe never raises for any
payload shape" is false. -/
theorem C6_probe_raises_counterexample :
    get_new_poll_id st0 (FirehoseResponse.payload (MessageField.strMsg none)) =
      Except.error PyError.jsonDecodeError := rfl

/-- C6 (amended): a transport timeout and a payload with no `message` key
are treated as "no poll" (not an error); a well-formed expired-subscription
marker is surfaced as a distinct recoverable condition through `last_error`
with "no poll"; but not every malformed payload is tolerated: a `message`
string that fails JSON parsing raises `JSONDecodeError`, and a non-string
`message` raises `TypeError`, both escaping the probe uncaught. -/
theorem C6_probe_error_handling (st : BotState) :
    get_new_poll_id st FirehoseResponse.timeout = Except.ok ((none, none), st) ∧
    get_new_poll_id st (FirehoseResponse.payload MessageField.absent) =
      Except.ok ((none, none), st) ∧
    (∀ fields, fields.any (fun kv => kv.1 = "error") = true →
      get_new_poll_id st
        (FirehoseResponse.payload (MessageField.strMsg (some (JVal.jobj fields)))) =
        Except.ok ((none, none), { st with last_error := some (JVal.jobj fields) })) ∧
    get_new_poll_id st (FirehoseResponse.payload (MessageField.strMsg none)) =
      Except.error PyError.jsonDecodeError ∧
    (∀ v, get_new_poll_id st (FirehoseResponse.payload (MessageField.nonStr v)) =
      Except.error PyError.typeError) := by
  refine ⟨rfl, rfl, ?_, rfl, fun v => rfl⟩
  intro fields hany
  have hce : pyContainsError (JVal.jobj fields) = Except.ok true := by
    rw [show pyContainsError (JVal.jobj fields) =
      Except.ok (fields.any (fun kv => kv.1 = "error")) from rfl, hany]
  simp [get_new_poll_id, hce]

/-- The expired-subscription marker payload of the C6 witness. -/
def expiredFields : List (String × JVal) :=
  [("error", JVal.jobj [("type", JVal.jstr "ExpiredSubscription")])]

/-- Witness for C6 at concrete probe outcomes. -/
theorem C6_probe_error_handling_witness :
    get_new_poll_id st0 FirehoseResponse.timeout = Except.ok ((none, none), st0) ∧
    get_new_poll_id st0
      (FirehoseResponse.payload (MessageField.strMsg (some (JVal.jobj expiredFields)))) =
      Except.ok ((none, none),
        { answered_polls := [], last_error := some (JVal.jobj expiredFields) }) ∧
    get_new_poll_id st0 (FirehoseResponse.payload (MessageField.nonStr (JVal.jnum 1))) =
      Except.error PyError.typeError := by
  have h := C6_probe_error_handling st0
  exact ⟨h.1, h.2.2.1 expiredFields rfl, h.2.2.2.2 (JVal.jnum 1)⟩

/- ### Per-poll answering (`pollbot.py`, `answer_poll`; log entries from
`response_logger.py`) -/

/-- One entry of a multiple-choice poll's `options` list. -/
structure MCOption where
  oid : String
  humanized_value : String
deriving DecidableEq

/-- The poll-detail payload `answer_poll` fetches: the fields the pipeline
and the logger read.  `options` is present for multiple choice and absent
for free text. -/
structure PollData where
  pd_id : Option String
  pd_type : Option String
  title : String
  options : Option (List MCOption)
deriving DecidableEq

/-- One line of the JSONL response log, as built by
`ResponseLogger.log_response`. -/
structure LogEntry where
  timestamp : Nat
  poll_id : Option String
  poll_type : Option String
  question : Option String
  options : Option (List MCOption)
  claude_response : Option String
  confidence : Option ℚ
  reasoning : Option String
deriving DecidableEq

/-- Embeds `ResponseLogger.log_response` on a free-text response dict (which has
`answer`, `confidence` and `reasoning` keys). -/
def log_response_free (now : Nat) (pd : PollData) (r : FreeTextResponse) : LogEntry :=
  { timestamp := now, poll_id := pd.pd_id, poll_type := pd.pd_type,
    question := some pd.title, options := pd.options,
    claude_response := some r.answer, confidence := some r.confidence,
    reasoning := some r.reasoning }

/-- Embeds `ResponseLogger.log_response` on a multiple-choice response dict: that
dict has no `answer` key, so `claude_response` is logged as `None`. -/
def log_response_mc (now : Nat) (pd : PollData) (conf : ℚ) (reas : String) : LogEntry :=
  { timestamp := now, poll_id := pd.pd_id, poll_type := pd.pd_type,
    question := some pd.title, options := pd.options,
    claude_response := none, confidence := some conf,
    reasoning := some reas }

/-- A POST to the answer endpoint: the observable submission. -/
inductive Submission
  | freeTextPost (value : String)
  | mcPost (option_id : String)
deriving DecidableEq

/-- The dict returned by `ClaudeClient.get_poll_response`. -/
structure MCResponse where
  selected_option_id : Int
  confidence : ℚ
  reasoning : String

/-- Python's `options[min_option:max_option]` slice (the bot's bounds are
non-negative; `max_option = None` means "to the end"). -/
def pySlice (opts : List MCOption) (lo : Nat) (hi : Option Nat) : List MCOption :=
  match hi with
  | none => opts.drop lo
  | some h => (opts.take h).drop lo

/-- Python list indexing with a possibly negative index:
`IndexError` when out of range. -/
def pyIndex (l : List MCOption) (i : Int) : Except PyError MCOption :=
  let j := if i < 0 then (l.length : Int) + i else i
  if h : 0 ≤ j ∧ j < (l.length : Int) then
    Except.ok (l.get ⟨j.toNat, by omega⟩)
  else Except.error PyError.indexError

/-- Embeds `random.choice(l)`: `IndexError` on an empty list, otherwise some
element, determined here by `rand_index` modulo the length. -/
def random_choice (l : List MCOption) (rand_index : Nat) : Except PyError MCOption :=
  match l with
  | [] => Except.error PyError.indexError
  | x :: xs =>
    Except.ok ((x :: xs).get ⟨rand_index % (xs.length + 1),
      Nat.mod_lt _ (Nat.succ_pos _)⟩)

/-- The external effects `answer_poll` consumes: whether a Claude client is
configured, the per-attempt free-text generation results, the
multiple-choice generation result, the `get_user_confirmation` outcome
(that helper swallows its own exceptions and returns a pair), the random
pick, the option window, and the wall clock for log timestamps. -/
structure AnswerEnv where
  claude : Bool
  gen_free : Nat → Except PyError FreeTextResponse
  gen_mc : Except PyError MCResponse
  approval : Bool × Option String
  rand_index : Nat
  min_option : Nat
  max_option : Option Nat
  now : Nat

/-- Embeds `PollBot.answer_poll`.  The `try` block's only handler is
`except IndexError`, which logs and returns `{}` (modelled
`ok (false, [], [])` = no submission); every other exception escapes.
Free text with Claude: validate-and-retry, give up on `None`, ask for
confirmation, drop on rejection (nothing logged), otherwise log the
ORIGINAL response and submit the possibly edited answer.  Free text
without Claude: the `else` branch reads the local `options`, which the
free-text path never assigned — `UnboundLocalError`.  Multiple choice with
Claude: one generation call, option lookup in the sliced window
(`IndexError` caught), log, submit.  Multiple choice without Claude:
`random.choice` over the window (`IndexError` caught), submit without
logging.  Returns (answered?, appended log entries, submissions). -/
def answer_poll (env : AnswerEnv) (poll_type : String) (pd : PollData) :
    Except PyError (Bool × List LogEntry × List Submission) :=
  if poll_type = "free_text_poll" then
    if env.claude then
      match validate_and_retry_response env.gen_free 3 with
      | Except.error PyError.indexError => Except.ok (false, [], [])
      | Except.error e => Except.error e
      | Except.ok (none, _) => Except.ok (false, [], [])
      | Except.ok (some r, _) =>
        if env.approval.1 then
          Except.ok (true, [log_response_free env.now pd r],
            [Submission.freeTextPost (env.approval.2.getD r.answer)])
        else Except.ok (false, [], [])
    else Except.error PyError.unboundLocalError
  else
    match pd.options with
    | none => Except.error PyError.keyError
    | some opts =>
      let window := pySlice opts env.min_option env.max_option
      if env.claude then
        match env.gen_mc with
        | Except.error PyError.indexError => Except.ok (false, [], [])
        | Except.error e => Except.error e
        | Except.ok mr =>
          match pyIndex window mr.selected_option_id with
          | Except.error _ => Except.ok (false, [], [])
          | Except.ok opt =>
            Except.ok (true, [log_response_mc env.now pd mr.confidence mr.reasoning],
              [Submission.mcPost opt.oid])
      else
        match random_choice window env.rand_index with
        | Except.error _ => Except.ok (false, [], [])
        | Except.ok opt => Except.ok (true, [], [Submission.mcPost opt.oid])

/-- The answering part of `run`'s loop body (lines 424-431): `run` wraps no
exception handler around `answer_poll`, so whatever it raises escapes the
main loop and terminates `run`. -/
def run_poll_iteration (env : AnswerEnv) (poll_type : String) (pd : PollData) :
    Except PyError Bool :=
  match answer_poll env poll_type pd with
  | Except.error e => Except.error e
  | Except.ok (r, _, _) => Except.ok r

/- ### C7: which errors the per-poll pipeline recovers from -/

/-- A free-text poll's detail payload. -/
def pdFT : PollData :=
  { pd_id := some "p1", pd_type := some "free_text_poll",
    title := "Q", options := none }

/-- An environment whose free-text generator raises on the first call. -/
def envGenFail : AnswerEnv :=
  { claude := true, gen_free := fun _ => Except.error PyError.generationError,
    gen_mc := Except.error PyError.generationError, approval := (true, none),
    rand_index := 0, min_option := 0, max_option := none, now := 0 }

/-- C7 counterexample: a generation error raised during a free-text answer
attempt is NOT recovered locally — `answer_poll` catches only `IndexError`,
and `run` has no handler around the loop body, so the error escapes the
main loop instead of skipping the poll. -/
theorem C7_generation_error_escapes_counterexample :
    answer_poll envGenFail "free_text_poll" pdFT =
      Except.error PyError.generationError ∧
    run_poll_iteration envGenFail "free_text_poll" pdFT =
      Except.error PyError.generationError := ⟨rfl, rfl⟩

/-- C7 (amended): within the loop body only `IndexError` (an empty or
overrun option window) is recovered locally — the poll is skipped with
nothing submitted; any other error raised by the answer generator during a
per-poll attempt propagates uncaught out of `answer_poll` and, `run` having
no handler around the loop body, out of the main loop. -/
theorem C7_only_index_error_recovered :
    (∀ (env : AnswerEnv) (pd : PollData) (opts : List MCOption) (pt : String),
      ¬ pt = "free_text_poll" → env.claude = false → pd.options = some opts →
      pySlice opts env.min_option env.max_option = [] →
      answer_poll env pt pd = Except.ok (false, [], [])) ∧
    (∀ (env : AnswerEnv) (pd : PollData) (e : PyError),
      env.claude = true → env.gen_free 0 = Except.error e →
      ¬ e = PyError.indexError →
      answer_poll env "free_text_poll" pd = Except.error e ∧
      run_poll_iteration env "free_text_poll" pd = Except.error e) := by
  constructor
  · intro env pd opts pt hpt hcl hopts hsl
    simp [answer_poll, hpt, hopts, hcl, hsl, random_choice]
  · intro env pd e hcl hgen hne
    have hv : validate_and_retry_response env.gen_free 3 = Except.error e := by
      simp [validate_and_retry_response, validate_and_retry_from, hgen]
    have hans : answer_poll env "free_text_poll" pd = Except.error e := by
      cases e <;> simp_all [answer_poll, hcl, hv]
    exact ⟨hans, by simp [run_poll_iteration, hans]⟩

/-- An environment with no Claude client configured. -/
def envNoClaude : AnswerEnv :=
  { claude := false, gen_free := fun _ => Except.ok passResp,
    gen_mc := Except.error PyError.generationError, approval := (true, none),
    rand_index := 0, min_option := 0, max_option := none, now := 0 }

/-- A multiple-choice poll whose options list is empty. -/
def pdMCEmpty : PollData :=
  { pd_id := some "p2", pd_type := some "multiple_choice_poll",
    title := "Q", options := some [] }

/-- Witness for C7: the empty option window is skipped locally, while a
concrete generation error escapes `answer_poll` and the loop body. -/
theorem C7_only_index_error_recovered_witness :
    answer_poll envNoClaude "multiple_choice_poll" pdMCEmpty =
      Except.ok (false, [], []) ∧
    answer_poll envGenFail "free_text_poll" pdFT =
      Except.error PyError.generationError ∧
    run_poll_iteration envGenFail "free_text_poll" pdFT =
      Except.error PyError.generationError := by
  have h := C7_only_index_error_recovered
  have hb := h.2 envGenFail pdFT PyError.generationError rfl rfl (by decide)
  exact ⟨h.1 envNoClaude pdMCEmpty [] "multiple_choice_poll" (by decide) rfl rfl rfl,
    hb.1, hb.2⟩

/- ### C8: when a log entry is appended -/

/-- An environment whose valid candidate the approver rejects. -/
def envReject : AnswerEnv :=
  { claude := true, gen_free := fun _ => Except.ok passResp,
    gen_mc := Except.error PyError.generationError, approval := (false, none),
    rand_index := 0, min_option := 0, max_option := none, now := 0 }

/-- C8 counterexample: an attempted answer that is generated, validated and
sent for approval but then rejected is dropped with NO record appended to
the response log (the source returns `{}` before reaching
`log_response`), so "every attempted answer — whether submitted or dropped
— is appended" is false. -/
theorem C8_dropped_answer_not_logged_counterexample :
    answer_poll envReject "free_text_poll" pdFT = Except.ok (false, [], []) := rfl

/-- C8 (amended): a record (timestamp, question, options, chosen
text/confidence/reasoning) is appended to the response log only for
candidates that proceed to submission: an approved free-text candidate is
logged (with its original text) and submitted; a rejected or timed-out
candidate and a validation-exhausted attempt are dropped with nothing
logged and nothing submitted; a generated multiple-choice response with a
valid option index is logged (its dict has no `answer` key, so the logged
text is `None`) and submitted; a random-fallback pick is submitted with
nothing logged. -/
theorem C8_log_only_on_submission :
    (∀ (env : AnswerEnv) (pd : PollData) (r : FreeTextResponse) (n : Nat)
        (mt : Option String),
      validate_and_retry_response env.gen_free 3 = Except.ok (some r, n) →
      env.claude = true → env.approval = (true, mt) →
      answer_poll env "free_text_poll" pd =
        Except.ok (true, [log_response_free env.now pd r],
          [Submission.freeTextPost (mt.getD r.answer)])) ∧
    (∀ (env : AnswerEnv) (pd : PollData) (r : FreeTextResponse) (n : Nat)
        (mt : Option String),
      validate_and_retry_response env.gen_free 3 = Except.ok (some r, n) →
      env.claude = true → env.approval = (false, mt) →
      answer_poll env "free_text_poll" pd = Except.ok (false, [], [])) ∧
    (∀ (env : AnswerEnv) (pd : PollData) (n : Nat),
      validate_and_retry_response env.gen_free 3 = Except.ok (none, n) →
      env.claude = true →
      answer_poll env "free_text_poll" pd = Except.ok (false, [], [])) ∧
    (∀ (env : AnswerEnv) (pd : PollData) (mr : MCResponse)
        (opts : List MCOption) (opt : MCOption) (pt : String),
      ¬ pt = "free_text_poll" → env.claude = true → pd.options = some opts →
      env.gen_mc = Except.ok mr →
      pyIndex (pySlice opts env.min_option env.max_option)
        mr.selected_option_id = Except.ok opt →
      answer_poll env pt pd =
        Except.ok (true, [log_response_mc env.now pd mr.confidence mr.reasoning],
          [Submission.mcPost opt.oid])) ∧
    (∀ (env : AnswerEnv) (pd : PollData) (opts : List MCOption)
        (opt : MCOption) (pt : String),
      ¬ pt = "free_text_poll" → env.claude = false → pd.options = some opts →
      random_choice (pySlice opts env.min_option env.max_option)
        env.rand_index = Except.ok opt →
      answer_poll env pt pd = Except.ok (true, [], [Submission.mcPost opt.oid])) := by
  refine ⟨?_, ?_, ?_, ?_, ?_⟩
  · intro env pd r n mt hv hcl happ
    simp [answer_poll, hcl, hv, happ]
  · intro env pd r n mt hv hcl happ
    simp [answer_poll, hcl, hv, happ]
  · intro env pd n hv hcl
    simp [answer_poll, hcl, hv]
  · intro env pd mr opts opt pt hpt hcl hopts hgen hidx
    simp [answer_poll, hpt, hcl, hopts, hgen, hidx]
  · intro env pd opts opt pt hpt hcl hopts hrand
    simp [answer_poll, hpt, hcl, hopts, hrand]

/-- An environment whose valid candidate the approver edits and approves. -/
def envApprove : AnswerEnv :=
  { claude := true, gen_free := fun _ => Except.ok passResp,
    gen_mc := Except.error PyError.generationError,
    approval := (true, some "edited"), rand_index := 0, min_option := 0,
    max_option := none, now := 0 }

/-- An environment whose generator never passes validation. -/
def envNeverValid : AnswerEnv :=
  { claude := true, gen_free := fun _ => Except.ok failResp,
    gen_mc := Except.error PyError.generationError, approval := (true, none),
    rand_index := 0, min_option := 0, max_option := none, now := 0 }

/-- A one-option multiple-choice poll for the C8 witness. -/
def optA : MCOption := { oid := "o1", humanized_value := "A" }

/-- The detail payload of that multiple-choice poll. -/
def pdMC : PollData :=
  { pd_id := some "p3", pd_type := some "multiple_choice_poll",
    title := "Q", options := some [optA] }

/-- An environment whose multiple-choice generator picks option 0. -/
def envMC : AnswerEnv :=
  { claude := true, gen_free := fun _ => Except.ok passResp,
    gen_mc := Except.ok { selected_option_id := 0,
                          confidence := mkRat 9 10, reasoning := "r" },
    approval := (true, none), rand_index := 0, min_option := 0,
    max_option := none, now := 0 }

/-- Witness for C8 at concrete environments: the approved-and-edited
candidate is logged (original text) and the edited text submitted; the
rejected and validation-exhausted attempts append nothing; the generated
multiple-choice pick is logged and submitted; the random-fallback pick is
submitted without a log entry. -/
theorem C8_log_only_on_submission_witness :
    answer_poll envApprove "free_text_poll" pdFT =
      Except.ok (true, [log_response_free 0 pdFT passResp],
        [Submission.freeTextPost "edited"]) ∧
    answer_poll envReject "free_text_poll" pdFT = Except.ok (false, [], []) ∧
    answer_poll envNeverValid "free_text_poll" pdFT = Except.ok (false, [], []) ∧
    answer_poll envMC "multiple_choice_poll" pdMC =
      Except.ok (true, [log_response_mc 0 pdMC (mkRat 9 10) "r"],
        [Submission.mcPost "o1"]) ∧
    answer_poll envNoClaude "multiple_choice_poll" pdMC =
      Except.ok (true, [], [Submission.mcPost "o1"]) := by
  have h := C8_log_only_on_submission
  refine ⟨?_, ?_, ?_, ?_, ?_⟩
  · exact h.1 envApprove pdFT passResp 1 (some "edited") rfl rfl rfl
  · exact h.2.1 envReject pdFT passResp 1 none rfl rfl rfl
  · exact h.2.2.1 envNeverValid pdFT 3 rfl rfl
  · exact h.2.2.2.1 envMC pdMC
      { selected_option_id := 0, confidence := mkRat 9 10, reasoning := "r" }
      [optA] optA "multiple_choice_poll" (by decide) rfl rfl rfl rfl
  · exact h.2.2.2.2 envNoClaude pdMC [optA] optA "multiple_choice_poll"
      (by decide) rfl rfl rfl
